import Mathlib

/-!
Shallow embedding of the BER dataset-cleaning pipeline (SourceCode.py).

A pandas row is modelled as a `Record`: the named numeric fields carry
exact rationals, the categorical fields carry strings, and `columns`
models the row index (the list of column names), which the code consults
in `drop_unwanted_columns` and in clause 3 of `filter_by_criteria`
(the Python expression `s in data_row` tests membership in the index of
a Series, not in its values).
-/

structure Record where
  Year_of_Construction : ℚ
  GroundFloorHeight : ℚ
  FirstFloorHeight : ℚ
  SecondFloorHeight : ℚ
  ThirdFloorHeight : ℚ
  GroundFloorArea : ℚ
  WallArea : ℚ
  WindowArea : ℚ
  DoorArea : ℚ
  FloorArea : ℚ
  RoofArea : ℚ
  LivingAreaPercent : ℚ
  HSMainSystemEfficiency : ℚ
  WHMainSystemEff : ℚ
  UvalueDoor : ℚ
  UValueWindow : ℚ
  UValueRoof : ℚ
  UValueFloor : ℚ
  UValueWall : ℚ
  NoStoreys : ℚ
  DwellingTypeDescr : String
  FirstWallType_Description : String
  TypeofRating : String
  AgeBand : String
  ThermalEra : String
  GlazingPercent : ℚ
  Volume : ℚ
  columns : List String

instance : DecidableEq Record := fun a b =>
  decidable_of_iff
    (a.Year_of_Construction = b.Year_of_Construction ∧
     a.GroundFloorHeight = b.GroundFloorHeight ∧
     a.FirstFloorHeight = b.FirstFloorHeight ∧
     a.SecondFloorHeight = b.SecondFloorHeight ∧
     a.ThirdFloorHeight = b.ThirdFloorHeight ∧
     a.GroundFloorArea = b.GroundFloorArea ∧
     a.WallArea = b.WallArea ∧
     a.WindowArea = b.WindowArea ∧
     a.DoorArea = b.DoorArea ∧
     a.FloorArea = b.FloorArea ∧
     a.RoofArea = b.RoofArea ∧
     a.LivingAreaPercent = b.LivingAreaPercent ∧
     a.HSMainSystemEfficiency = b.HSMainSystemEfficiency ∧
     a.WHMainSystemEff = b.WHMainSystemEff ∧
     a.UvalueDoor = b.UvalueDoor ∧
     a.UValueWindow = b.UValueWindow ∧
     a.UValueRoof = b.UValueRoof ∧
     a.UValueFloor = b.UValueFloor ∧
     a.UValueWall = b.UValueWall ∧
     a.NoStoreys = b.NoStoreys ∧
     a.DwellingTypeDescr = b.DwellingTypeDescr ∧
     a.FirstWallType_Description = b.FirstWallType_Description ∧
     a.TypeofRating = b.TypeofRating ∧
     a.AgeBand = b.AgeBand ∧
     a.ThermalEra = b.ThermalEra ∧
     a.GlazingPercent = b.GlazingPercent ∧
     a.Volume = b.Volume ∧
     a.columns = b.columns)
    (by cases a; cases b; simp)

/-- The age-band bins of `add_desired_columns`: `(lower, upper, band)`
with `none` standing for the infinite endpoints
`float(-inf)` / `float(inf)` of the Python `bins` list. -/
def ageBins : List (Option ℚ × Option ℚ × String) :=
  [(none, some 1899, "A"), (some 1899, some 1929, "B"), (some 1929, some 1949, "C"),
   (some 1949, some 1966, "D"), (some 1966, some 1977, "E"), (some 1977, some 1982, "F"),
   (some 1982, some 1993, "G"), (some 1993, some 1999, "H"), (some 1999, some 2004, "I"),
   (some 2004, some 2009, "J"), (some 2009, none, "K")]

/-- The loop guard `data_row[Year] > bins[i] and data_row[Year] <= bins[i+1]`. -/
def binMatches (y : ℚ) (lo hi : Option ℚ) : Bool :=
  (match lo with | none => true | some l => decide (l < y)) &&
  (match hi with | none => true | some u => decide (y ≤ u))

/-- The age-band assignment loop: each matching bin overwrites the
current value of the AgeBand cell (initially `init`). -/
def ageBandOf (y : ℚ) (init : String) : String :=
  ageBins.foldl (fun acc e => if binMatches y e.1 e.2.1 then e.2.2 else acc) init

/-- The Python `col.startswith(p)` test, modelled on the character
sequences of the two strings. -/
def strStartsWith (c p : String) : Bool := p.data.isPrefixOf c.data

/-- The Python `s.endswith(p)` test, modelled on the character
sequences of the two strings. -/
def strEndsWith (s p : String) : Bool := p.data.isSuffixOf s.data

def drop_unwanted_columns (r : Record) : Record :=
  { r with columns := r.columns.filter (fun c =>
      !(c == "FirstWallDescription" || c == "SecondWallDescription" ||
        c == "ThirdWallDescription" || strStartsWith c "Unnamed:")) }

def add_desired_columns (r : Record) : Record :=
  { r with
    AgeBand := ageBandOf r.Year_of_Construction r.AgeBand
    ThermalEra := if r.Year_of_Construction ≤ 1977 then "Pre" else "Post"
    GlazingPercent := if r.WallArea > 0 then r.WindowArea / r.WallArea else 0
    Volume := r.GroundFloorArea *
      (r.GroundFloorHeight + r.FirstFloorHeight + r.SecondFloorHeight + r.ThirdFloorHeight)
    columns := r.columns ++
      (["AgeBand", "ThermalEra", "GlazingPercent", "Volume"].filter
        (fun c => !(r.columns.contains c))) }

def correct_column_data (r : Record) : Record :=
  if r.NoStoreys < 4 then
    { r with NoStoreys := 1 +
        ((if r.FirstFloorHeight > 0 then 1 else 0) +
         (if r.SecondFloorHeight > 0 then 1 else 0) +
         (if r.ThirdFloorHeight > 0 then 1 else 0)) }
  else r

/-- The function `find_and_replace`: sequential conditional replacements, matched per
age band; each guard re-reads the current (possibly already updated)
U-value, exactly as the Python row mutation does. -/
def find_and_replace (r : Record) : Record :=
  if r.AgeBand = "A" then
    let r := if r.UValueWall = 2.10 ∧ r.FirstWallType_Description = "Unknown" then { r with UValueWall := 2.69 } else r
    let r := if r.UValueWall = 2.10 ∧ r.FirstWallType_Description = "Stone" then { r with UValueWall := 2.90 } else r
    let r := if r.UValueWall = 1.64 ∧ r.FirstWallType_Description = "325mm Solid Brick" then { r with UValueWall := 1.55 } else r
    if r.UValueRoof = 2.30 then { r with UValueRoof := 0.71 } else r
  else if r.AgeBand = "B" then
    let r := if r.UValueWall = 2.10 ∧ r.FirstWallType_Description = "Unknown" then { r with UValueWall := 1.75 } else r
    let r := if r.UValueWall = 2.10 ∧ r.FirstWallType_Description = "Stone" then { r with UValueWall := 3.28 } else r
    let r := if r.UValueWall = 2.10 ∧ r.FirstWallType_Description = "225mm Solid brick" then { r with UValueWall := 1.75 } else r
    let r := if r.UValueWall = 1.64 ∧ r.FirstWallType_Description = "325mm Solid Brick" then { r with UValueWall := 1.55 } else r
    if r.UValueRoof = 2.30 then { r with UValueRoof := 0.71 } else r
  else if r.AgeBand = "C" then
    let r := if r.UValueWall = 2.10 ∧ r.FirstWallType_Description = "Unknown" then { r with UValueWall := 2.12 } else r
    let r := if r.UValueWall = 2.10 ∧ r.FirstWallType_Description = "225mm Solid brick" then { r with UValueWall := 1.75 } else r
    let r := if r.UValueWall = 1.78 ∧ r.FirstWallType_Description = "300mm Cavity" then { r with UValueWall := 1.20 } else r
    let r := if r.UValueWall = 2.20 ∧ r.FirstWallType_Description = "Solid Mass Concrete" then { r with UValueWall := 2.12 } else r
    if r.UValueRoof = 2.30 then { r with UValueRoof := 0.71 } else r
  else if r.AgeBand = "D" then
    let r := if r.UValueWall = 2.10 ∧ r.FirstWallType_Description = "Unknown" then { r with UValueWall := 2.69 } else r
    let r := if r.UValueWall = 1.78 ∧ r.FirstWallType_Description = "300mm Cavity" then { r with UValueWall := 1.85 } else r
    let r := if r.UValueWall = 2.20 ∧ r.FirstWallType_Description = "Solid Mass Concrete" then { r with UValueWall := 2.12 } else r
    let r := if r.UValueWall = 2.40 ∧ r.FirstWallType_Description = "Concrete Hollow Block" then { r with UValueWall := 2.69 } else r
    if r.UValueRoof = 2.30 then { r with UValueRoof := 0.71 } else r
  else if r.AgeBand = "E" then
    let r := if r.UValueWall = 2.10 ∧ r.FirstWallType_Description = "Unknown" then { r with UValueWall := 2.14 } else r
    let r := if r.UValueWall = 1.78 ∧ r.FirstWallType_Description = "300mm Cavity" then { r with UValueWall := 1.54 } else r
    let r := if r.UValueWall = 2.40 ∧ r.FirstWallType_Description = "Concrete Hollow Block" then { r with UValueWall := 2.14 } else r
    if r.UValueRoof = 2.30 then { r with UValueRoof := 0.71 } else r
  else if r.AgeBand = "F" then
    let r := if r.UValueWall = 1.10 ∧ r.FirstWallType_Description = "Unknown" then { r with UValueWall := 1.83 } else r
    let r := if r.UValueWall = 1.10 ∧ r.FirstWallType_Description = "300mm Cavity" then { r with UValueWall := 1.43 } else r
    let r := if r.UValueWall = 0.60 ∧ r.FirstWallType_Description = "300mm Filled Cavity" then { r with UValueWall := 0.54 } else r
    let r := if r.UValueWall = 1.10 ∧ r.FirstWallType_Description = "Concrete Hollow Block" then { r with UValueWall := 1.83 } else r
    if r.UValueRoof = 0.49 then { r with UValueRoof := 0.43 } else r
  else if r.AgeBand = "G" then
    let r := if r.UValueWall = 0.60 ∧ r.FirstWallType_Description = "Unknown" then { r with UValueWall := 1.35 } else r
    let r := if r.UValueWall = 0.60 ∧ r.FirstWallType_Description = "300mm Cavity" then { r with UValueWall := 1.35 } else r
    let r := if r.UValueWall = 0.60 ∧ r.FirstWallType_Description = "300mm Filled Cavity" then { r with UValueWall := 0.54 } else r
    let r := if r.UValueWall = 0.60 ∧ r.FirstWallType_Description = "Concrete Hollow Block" then { r with UValueWall := 1.72 } else r
    if r.UValueRoof = 0.49 then { r with UValueRoof := 0.43 } else r
  else if r.AgeBand = "H" then
    let r := if r.UValueWall = 0.55 ∧ r.FirstWallType_Description = "Unknown" then { r with UValueWall := 0.39 } else r
    let r := if r.UValueWall = 0.55 ∧ r.FirstWallType_Description = "300mm Filled Cavity" then { r with UValueWall := 0.39 } else r
    let r := if r.UValueWall = 0.55 ∧ r.FirstWallType_Description = "Concrete Hollow Block" then { r with UValueWall := 0.54 } else r
    let r := if r.UValueWall = 0.55 ∧ r.FirstWallType_Description = "Timber Frame" then { r with UValueWall := 0.40 } else r
    if r.UValueRoof = 0.40 then { r with UValueRoof := 0.28 } else r
  else if r.AgeBand = "I" then
    let r := if r.UValueWall = 0.55 ∧ r.FirstWallType_Description = "Unknown" then { r with UValueWall := 0.28 } else r
    let r := if r.UValueWall = 0.55 ∧ r.FirstWallType_Description = "300mm Filled Cavity" then { r with UValueWall := 0.29 } else r
    let r := if r.UValueWall = 0.55 ∧ r.FirstWallType_Description = "Timber Frame" then { r with UValueWall := 0.35 } else r
    if r.UValueRoof = 0.36 then { r with UValueRoof := 0.28 } else r
  else if r.AgeBand = "J" then
    let r := if r.UValueWall = 0.37 ∧ r.FirstWallType_Description = "Unknown" then { r with UValueWall := 0.27 } else r
    let r := if r.UValueWall = 0.37 ∧ r.FirstWallType_Description = "300mm Filled Cavity" then { r with UValueWall := 0.27 } else r
    let r := if r.UValueWall = 0.37 ∧ r.FirstWallType_Description = "Timber Frame" then { r with UValueWall := 0.30 } else r
    if r.UValueRoof = 0.25 then { r with UValueRoof := 0.21 } else r
  else if r.AgeBand = "K" then
    let r := if r.UValueWall = 0.27 ∧ r.FirstWallType_Description = "Unknown" then { r with UValueWall := 0.27 } else r
    let r := if r.UValueWall = 0.27 ∧ r.FirstWallType_Description = "300mm Filled Cavity" then { r with UValueWall := 0.21 } else r
    let r := if r.UValueWall = 0.27 ∧ r.FirstWallType_Description = "Timber Frame" then { r with UValueWall := 0.27 } else r
    if r.UValueRoof = 0.25 then { r with UValueRoof := 0.21 } else r
  else r

/-- Closed interval membership `lo <= x <= hi` as used by the rule guards. -/
def inRange (lo x hi : ℚ) : Bool := decide (lo ≤ x) && decide (x ≤ hi)

/-- Half-open membership `lo < x <= hi` (door-area guards written `0 < x <= hi`). -/
def inRangeOpen (lo x hi : ℚ) : Bool := decide (lo < x) && decide (x ≤ hi)

/-- Clause 1: Year of Construction must not exceed the current year. -/
def clause1Exclude (now : ℚ) (r : Record) : Bool :=
  decide (r.Year_of_Construction > now)

/-- Clause 2: Ground Floor Height. -/
def clause2Exclude (r : Record) : Bool :=
  !(inRange 2.30 r.GroundFloorHeight 3.46 || decide (r.GroundFloorHeight = 0))

/-- Clause 3: the Python code evaluates `allowed_substring in data_row`,
which for a pandas Series tests membership in the row INDEX (the column
names), not in the cell values. -/
def clause3Exclude (r : Record) : Bool :=
  !(r.columns.contains "Final" || r.columns.contains "Existing" ||
    r.columns.contains "Provisional")

/-- Clause 4: HS Main System Efficiency. -/
def clause4Exclude (r : Record) : Bool :=
  !(decide (r.HSMainSystemEfficiency = 0) ||
    inRange 23.07 r.HSMainSystemEfficiency 95.90 ||
    inRange 100 r.HSMainSystemEfficiency 635.34)

/-- Clause 5: WH Main System Efficiency. -/
def clause5Exclude (r : Record) : Bool :=
  !(decide (r.WHMainSystemEff = 0) ||
    inRange 24 r.WHMainSystemEff 95.90 ||
    inRange 100 r.WHMainSystemEff 389.9)

/-- Clauses 6-16: the case-dependent bounds, matched on the literal
dwelling-type strings of the Python `match` statement (note the spelling
of the last case in the source). -/
def categoryExclude (r : Record) : Bool :=
  if r.DwellingTypeDescr = "Semi-detached house" then
    !(inRange 11.27 r.LivingAreaPercent 35.16) || !(inRange 53.19 r.WallArea 147.96) ||
    !(inRange 31.13 r.FloorArea 119.09) || !(inRange 48.75 r.GroundFloorArea 186.83) ||
    !(inRange 32.34 r.RoofArea 127.39) || !(inRange 7.09 r.WindowArea 41.99) ||
    !(inRangeOpen 0 r.DoorArea 5.86)
  else if r.DwellingTypeDescr = "End of terrace house" then
    !(inRange 12.96 r.LivingAreaPercent 59.49) || !(inRange 56.62 r.WallArea 155.61) ||
    !(inRange 29.97 r.FloorArea 104.74) || !(inRange 58.68 r.GroundFloorArea 190.49) ||
    !(inRange 29.99 r.RoofArea 108.82) || !(inRange 5.66 r.WindowArea 34.82) ||
    !(inRange 1.54 r.DoorArea 17.97)
  else if r.DwellingTypeDescr = "Detached house" then
    !(inRange 7.54 r.LivingAreaPercent 45.89) || !(inRange 31.68 r.WallArea 336.19) ||
    !(inRange 28.87 r.FloorArea 255.60) || !(inRange 52.24 r.GroundFloorArea 422.20) ||
    !(inRange 30.08 r.RoofArea 290.85) || !(inRange 5.61 r.WindowArea 83.48) ||
    !(inRangeOpen 0 r.DoorArea 6.28)
  else if r.DwellingTypeDescr = "Top-floor apartment" then
    !(inRange (-0.23) r.LivingAreaPercent 62.28) || !(inRange 4.63 r.WallArea 139.35) ||
    !(inRange 0 r.FloorArea 0) || !(inRange 18.29 r.GroundFloorArea 153.06) ||
    !(inRange 12.16 r.RoofArea 126.58) || !(inRange 2.02 r.WindowArea 38.71) ||
    !(inRangeOpen 0 r.DoorArea 1.91)
  else if r.DwellingTypeDescr = "Mid-terrace house" then
    !(inRange 13.03 r.LivingAreaPercent 72.13) || !(inRange 29.24 r.WallArea 163.64) ||
    !(inRange 31.65 r.FloorArea 101.19) || !(inRange 61.13 r.GroundFloorArea 189.89) ||
    !(inRange 32.54 r.RoofArea 110.68) || !(inRange 4.29 r.WindowArea 29.02) ||
    !(inRange 1.61 r.DoorArea 21.04)
  else if r.DwellingTypeDescr = "Maisonette" then
    !(inRange 6.39 r.LivingAreaPercent 78.28) || !(inRange 20.88 r.WallArea 255.43) ||
    !(inRange (-3.65) r.FloorArea 841.0) || !(inRange 12.82 r.GroundFloorArea 182.30) ||
    !(inRange (-121.43) r.RoofArea 84.78) || !(inRange 1.83 r.WindowArea 35.75) ||
    !(inRange 1.83 r.DoorArea 6.21)
  else if r.DwellingTypeDescr = "House" then
    !(inRange 6.61 r.LivingAreaPercent 39.73) || !(inRange 57.96 r.WallArea 392.64) ||
    !(inRange (-8.56) r.FloorArea 248.01) || !(inRange 53.63 r.GroundFloorArea 453.75) ||
    !(inRange (-4.44) r.RoofArea 284.29) || !(inRange 5.44 r.WindowArea 78.07) ||
    !(inRangeOpen 0 r.DoorArea 4.73)
  else if r.DwellingTypeDescr = "Apartment" then
    !(inRange 43.39 r.LivingAreaPercent 57.59) || !(inRange 0.03 r.WallArea 135.15) ||
    !(inRange (-1.41) r.FloorArea 1596.88) || !(inRange 14.73 r.GroundFloorArea 143.84) ||
    !(inRange (-4.74) r.RoofArea 725.23) || !(inRange 1.72 r.WindowArea 47.62) ||
    !(inRange 1.78 r.DoorArea 2.02)
  else if r.DwellingTypeDescr = "Ground-floor apartment" then
    !(inRange 3.72 r.LivingAreaPercent 64.30) || !(inRange (-5.79) r.WallArea 113.86) ||
    !(inRange 2.23 r.FloorArea 107.71) || !(inRange 14.74 r.GroundFloorArea 125.67) ||
    !(inRange (-0.19) r.RoofArea 214.01) || !(inRange 2.96 r.WindowArea 32.76) ||
    !(inRange 1.45 r.DoorArea 2.40)
  else if r.DwellingTypeDescr = "Mid-floor apartment" then
    !(inRange 21.59 r.LivingAreaPercent 65.04) || !(inRange (-0.75) r.WallArea 104.89) ||
    !(inRange 0 r.FloorArea 0) || !(inRange 8.61 r.GroundFloorArea 114.22) ||
    !(inRange 0 r.RoofArea 0) || !(inRange 2.77 r.WindowArea 41.77) ||
    !(inRangeOpen 0 r.DoorArea 1.91)
  else if r.DwellingTypeDescr = "Basement Dwellinge" then
    !(inRange (-4.70) r.LivingAreaPercent 81.83) || !(inRange 0.94 r.WallArea 148.01) ||
    !(inRange (-12.76) r.FloorArea 141.22) || !(inRange 2.43 r.GroundFloorArea 189.37) ||
    !(inRange (-0.21) r.RoofArea 238.13) || !(inRange (-0.28) r.WindowArea 32.29) ||
    !(inRange 0.29 r.DoorArea 2.23)
  else false

/-- Clause 17 (Pre era), door check. -/
def preDoorExclude (r : Record) : Bool :=
  !(inRange 1.10 r.UvalueDoor 3.90 || decide (r.UvalueDoor = 0))

/-- Clause 17 (Pre era), window check. -/
def preWindowExclude (r : Record) : Bool :=
  !(inRange 1.18 r.UValueWindow 5.70 || decide (r.UValueWindow = 0))

/-- Clause 17 (Pre era), roof check. -/
def preRoofExclude (r : Record) : Bool :=
  !(inRange 0.13 r.UValueRoof 1.99 || decide (r.UValueRoof = 0))

/-- Clause 17 (Pre era), floor check. -/
def preFloorExclude (r : Record) : Bool :=
  !(inRange 0.16 r.UValueFloor 1.14 || decide (r.UValueFloor = 0))

/-- Clause 17 (Pre era), wall check: no zero exemption. -/
def preWallExclude (r : Record) : Bool :=
  !(inRange 0.20 r.UValueWall 2.90)

/-- Clause 18 (Post era), door check. -/
def postDoorExclude (r : Record) : Bool :=
  !(inRange 0.83 r.UvalueDoor 3.54 || decide (r.UvalueDoor = 0))

/-- Clause 18 (Post era), window check. -/
def postWindowExclude (r : Record) : Bool :=
  !(inRange 0.77 r.UValueWindow 4.80 || decide (r.UValueWindow = 0))

/-- Clause 18 (Post era), roof check. -/
def postRoofExclude (r : Record) : Bool :=
  !(inRange 0.11 r.UValueRoof 0.68 || decide (r.UValueRoof = 0))

/-- Clause 18 (Post era), floor check. -/
def postFloorExclude (r : Record) : Bool :=
  !(inRange 0.11 r.UValueFloor 1.14 || decide (r.UValueFloor = 0))

/-- Clause 18 (Post era), wall check: no zero exemption. -/
def postWallExclude (r : Record) : Bool :=
  !(inRange 0.14 r.UValueWall 1.72)

/-- Clauses 17-18 combined, selected by ThermalEra. -/
def eraExclude (r : Record) : Bool :=
  if r.ThermalEra = "Pre" then
    preDoorExclude r || preWindowExclude r || preRoofExclude r ||
    preFloorExclude r || preWallExclude r
  else if r.ThermalEra = "Post" then
    postDoorExclude r || postWindowExclude r || postRoofExclude r ||
    postFloorExclude r || postWallExclude r
  else false

/-- The function `filter_by_criteria`: `exclude_row` starts False and each failing
clause sets it True, which is the disjunction of all clause flags. -/
def filter_by_criteria (now : ℚ) (r : Record) : Bool :=
  clause1Exclude now r || clause2Exclude r || clause3Exclude r ||
  clause4Exclude r || clause5Exclude r || categoryExclude r || eraExclude r

/-- The function `cleaning_methodology`: drop columns, add derived columns, correct
story count, replace defaults — in that order. -/
def cleaning_methodology (r : Record) : Record :=
  find_and_replace (correct_column_data (add_desired_columns (drop_unwanted_columns r)))

/-- One chunk of `process_csv_file`: clean every row, then KEEP the rows
whose ids satisfy `filter_by_criteria` (`chunk.filter(items=[id for id in
chunk.index if filter_by_criteria(chunk.loc[id])])` retains exactly the
listed ids, i.e. the rows whose exclusion flag is True). -/
def processChunk (now : ℚ) (rs : List Record) : List Record :=
  (rs.map cleaning_methodology).filter (fun r => filter_by_criteria now r)

/-- The chunked read loop, fuel-indexed; each iteration consumes one
chunk of at most `n` records and appends its survivors to the output. -/
def processChunkedAux (now : ℚ) (n : ℕ) : ℕ → List Record → List Record
  | 0, _ => []
  | _, [] => []
  | fuel + 1, xs => processChunk now (xs.take n) ++ processChunkedAux now n fuel (xs.drop n)

/-- The record-stream semantics of the `pd.read_csv(chunksize=n)` loop:
with positive chunk size, `xs.length` fuel always exhausts the input. -/
def processChunked (now : ℚ) (n : ℕ) (xs : List Record) : List Record :=
  processChunkedAux now n xs.length xs

/-- The function `process_csv_file`: the up-front destination checks, then the chunk
loop over the input contents; an error result carries no output rows. -/
def process_csv_file (now : ℚ) (input_csv_file output_csv_file : String)
    (chunk_size : ℕ) (rows : List Record) : Except String (List Record) :=
  if !(strEndsWith input_csv_file ".csv") || !(strEndsWith output_csv_file ".csv") then
    .error "This function only accepts filetype .csv"
  else if input_csv_file = output_csv_file then
    .error "Same input and output file given. Use different input and output files."
  else
    .ok (processChunked now chunk_size rows)

/-- The wall-correction table in declarative form, keyed by
`(AgeBand, FirstWallType_Description, current UValueWall)`; exact match
replaces the wall U-value, anything else is left unchanged. -/
def wallLookup (band desc : String) (w : ℚ) : ℚ :=
  if band = "A" ∧ w = 2.10 ∧ desc = "Unknown" then 2.69
  else if band = "A" ∧ w = 2.10 ∧ desc = "Stone" then 2.90
  else if band = "A" ∧ w = 1.64 ∧ desc = "325mm Solid Brick" then 1.55
  else if band = "B" ∧ w = 2.10 ∧ desc = "Unknown" then 1.75
  else if band = "B" ∧ w = 2.10 ∧ desc = "Stone" then 3.28
  else if band = "B" ∧ w = 2.10 ∧ desc = "225mm Solid brick" then 1.75
  else if band = "B" ∧ w = 1.64 ∧ desc = "325mm Solid Brick" then 1.55
  else if band = "C" ∧ w = 2.10 ∧ desc = "Unknown" then 2.12
  else if band = "C" ∧ w = 2.10 ∧ desc = "225mm Solid brick" then 1.75
  else if band = "C" ∧ w = 1.78 ∧ desc = "300mm Cavity" then 1.20
  else if band = "C" ∧ w = 2.20 ∧ desc = "Solid Mass Concrete" then 2.12
  else if band = "D" ∧ w = 2.10 ∧ desc = "Unknown" then 2.69
  else if band = "D" ∧ w = 1.78 ∧ desc = "300mm Cavity" then 1.85
  else if band = "D" ∧ w = 2.20 ∧ desc = "Solid Mass Concrete" then 2.12
  else if band = "D" ∧ w = 2.40 ∧ desc = "Concrete Hollow Block" then 2.69
  else if band = "E" ∧ w = 2.10 ∧ desc = "Unknown" then 2.14
  else if band = "E" ∧ w = 1.78 ∧ desc = "300mm Cavity" then 1.54
  else if band = "E" ∧ w = 2.40 ∧ desc = "Concrete Hollow Block" then 2.14
  else if band = "F" ∧ w = 1.10 ∧ desc = "Unknown" then 1.83
  else if band = "F" ∧ w = 1.10 ∧ desc = "300mm Cavity" then 1.43
  else if band = "F" ∧ w = 0.60 ∧ desc = "300mm Filled Cavity" then 0.54
  else if band = "F" ∧ w = 1.10 ∧ desc = "Concrete Hollow Block" then 1.83
  else if band = "G" ∧ w = 0.60 ∧ desc = "Unknown" then 1.35
  else if band = "G" ∧ w = 0.60 ∧ desc = "300mm Cavity" then 1.35
  else if band = "G" ∧ w = 0.60 ∧ desc = "300mm Filled Cavity" then 0.54
  else if band = "G" ∧ w = 0.60 ∧ desc = "Concrete Hollow Block" then 1.72
  else if band = "H" ∧ w = 0.55 ∧ desc = "Unknown" then 0.39
  else if band = "H" ∧ w = 0.55 ∧ desc = "300mm Filled Cavity" then 0.39
  else if band = "H" ∧ w = 0.55 ∧ desc = "Concrete Hollow Block" then 0.54
  else if band = "H" ∧ w = 0.55 ∧ desc = "Timber Frame" then 0.40
  else if band = "I" ∧ w = 0.55 ∧ desc = "Unknown" then 0.28
  else if band = "I" ∧ w = 0.55 ∧ desc = "300mm Filled Cavity" then 0.29
  else if band = "I" ∧ w = 0.55 ∧ desc = "Timber Frame" then 0.35
  else if band = "J" ∧ w = 0.37 ∧ desc = "Unknown" then 0.27
  else if band = "J" ∧ w = 0.37 ∧ desc = "300mm Filled Cavity" then 0.27
  else if band = "J" ∧ w = 0.37 ∧ desc = "Timber Frame" then 0.30
  else if band = "K" ∧ w = 0.27 ∧ desc = "Unknown" then 0.27
  else if band = "K" ∧ w = 0.27 ∧ desc = "300mm Filled Cavity" then 0.21
  else if band = "K" ∧ w = 0.27 ∧ desc = "Timber Frame" then 0.27
  else w

/-- The roof-correction table in declarative form, keyed by
`(AgeBand, current UValueRoof)` only. -/
def roofLookup (band : String) (v : ℚ) : ℚ :=
  if (band = "A" ∨ band = "B" ∨ band = "C" ∨ band = "D" ∨ band = "E") ∧ v = 2.30 then 0.71
  else if (band = "F" ∨ band = "G") ∧ v = 0.49 then 0.43
  else if band = "H" ∧ v = 0.40 then 0.28
  else if band = "I" ∧ v = 0.36 then 0.28
  else if band = "J" ∧ v = 0.25 then 0.21
  else if band = "K" ∧ v = 0.25 then 0.21
  else v

/-- A realistic column header for the BER data (the fields read by the
pipeline plus a droppable description column); note that none of the
column names is literally Final, Existing or Provisional. -/
def stdColumns : List String :=
  ["Year_of_Construction", "TypeofRating", "GroundFloorHeight", "FirstFloorHeight",
   "SecondFloorHeight", "ThirdFloorHeight", "GroundFloorArea(sq m)", "WallArea",
   "WindowArea", "DoorArea", "FloorArea", "RoofArea", "LivingAreaPercent",
   "HSMainSystemEfficiency", "WHMainSystemEff", "UvalueDoor", "UValueWindow",
   "UValueRoof", "UValueFloor", "UValueWall", "NoStoreys", "DwellingTypeDescr",
   "FirstWallType_Description", "FirstWallDescription"]

/-- A detached house, year 1950, with every numeric field inside all the
bounds that apply to it; its rating value contains the word Final. -/
def baseRec : Record :=
  { Year_of_Construction := 1950, GroundFloorHeight := 2.5, FirstFloorHeight := 2.5,
    SecondFloorHeight := 0, ThirdFloorHeight := 0, GroundFloorArea := 100,
    WallArea := 100, WindowArea := 20, DoorArea := 2, FloorArea := 100, RoofArea := 100,
    LivingAreaPercent := 30, HSMainSystemEfficiency := 80, WHMainSystemEff := 80,
    UvalueDoor := 2, UValueWindow := 2.8, UValueRoof := 0.5, UValueFloor := 0.5,
    UValueWall := 1, NoStoreys := 2, DwellingTypeDescr := "Detached house",
    FirstWallType_Description := "Brick", TypeofRating := "Final BER",
    AgeBand := "", ThermalEra := "", GlazingPercent := 0, Volume := 0,
    columns := stdColumns }

/-- A copy of `baseRec` with an (artificial) column literally named Final, the
only way clause 3 of the code can be passed. -/
def recWithFinalColumn : Record := { baseRec with columns := "Final" :: stdColumns }

/-- A record whose rating value contains none of the allowed words, but
whose header has a column named Final. -/
def recRatingJunk : Record := { baseRec with TypeofRating := "zz", columns := "Final" :: stdColumns }

/-- A basement dwelling (spelled as in the source DATA and the spec)
with door and wall areas far outside the basement bounds. -/
def basementRec : Record :=
  { baseRec with DwellingTypeDescr := "Basement Dwelling", DoorArea := 0, WallArea := 0 }

/-- The same record with the dwelling type spelled as in the source CODE. -/
def basementRecTypo : Record := { basementRec with DwellingTypeDescr := "Basement Dwellinge" }

/-- A pre-era record with a zero wall U-value. -/
def preZeroWallRec : Record := { baseRec with ThermalEra := "Pre", UValueWall := 0 }

set_option maxRecDepth 40000

/-- C1: the claim says a processed record appears in the output stream
iff the Validation Engine decision for its cleaned form is include.  The
code does the opposite: `chunk.filter(items=[id .. if
filter_by_criteria(..)])` KEEPS the rows whose exclusion flag is True.
`baseRec` is decided exclude (its header has no column named Final, so
clause 3 flags it), yet it appears in the output; `recWithFinalColumn`
is decided include, yet it is dropped. -/
theorem c1_output_keeps_excluded_records :
    (filter_by_criteria 2026 (cleaning_methodology baseRec) = true ∧
      processChunked 2026 1000 [baseRec] = [cleaning_methodology baseRec]) ∧
    (filter_by_criteria 2026 (cleaning_methodology recWithFinalColumn) = false ∧
      processChunked 2026 1000 [recWithFinalColumn] = []) := by
  with_unfolding_all decide

/-- C2: the claim says global rule 3 passes exactly the records whose
rating-type value contains Final, Existing or Provisional.  The code
evaluates `allowed_substring in data_row`, which tests the COLUMN NAMES
of the row, not the rating value: a record whose rating value is
Final BER is still flagged, and a record with junk rating value but a
column literally named Final passes. -/
theorem c2_clause3_tests_column_names_not_rating_value :
    (baseRec.TypeofRating = "Final BER" ∧ clause3Exclude baseRec = true) ∧
    (recRatingJunk.TypeofRating = "zz" ∧ clause3Exclude recRatingJunk = false) := by
  with_unfolding_all decide

/-- C3: the claim says each of the 11 enumerated dwelling types
(including Basement Dwelling) gets its seven range checks.  The code
spells its eleventh case Basement Dwellinge, so a record with the real
dwelling type Basement Dwelling and a door area of 0 (outside the
basement bound 0.29..2.23) fires no category rule, while the same record
under the misspelled tag is flagged. -/
theorem c3_basement_dwelling_case_never_fires :
    categoryExclude basementRec = false ∧ categoryExclude basementRecTypo = true := by
  with_unfolding_all decide
/-- C4: every rational construction year matches exactly one bin of the
age-band loop, and the resulting band follows the documented half-open
intervals with inclusive upper boundaries 1899 A, 1929 B, 1949 C, 1966 D,
1977 E, 1982 F, 1993 G, 1999 H, 2004 I, 2009 J, else K, with years at or
below 1899 mapping to A; the initial cell value never survives. -/
theorem c4_ageband_total_and_boundaries (y : ℚ) (init : String) :
    ageBins.countP (fun e => binMatches y e.1 e.2.1) = 1 ∧
    (y ≤ 1899 → ageBandOf y init = "A") ∧
    (1899 < y → y ≤ 1929 → ageBandOf y init = "B") ∧
    (1929 < y → y ≤ 1949 → ageBandOf y init = "C") ∧
    (1949 < y → y ≤ 1966 → ageBandOf y init = "D") ∧
    (1966 < y → y ≤ 1977 → ageBandOf y init = "E") ∧
    (1977 < y → y ≤ 1982 → ageBandOf y init = "F") ∧
    (1982 < y → y ≤ 1993 → ageBandOf y init = "G") ∧
    (1993 < y → y ≤ 1999 → ageBandOf y init = "H") ∧
    (1999 < y → y ≤ 2004 → ageBandOf y init = "I") ∧
    (2004 < y → y ≤ 2009 → ageBandOf y init = "J") ∧
    (2009 < y → ageBandOf y init = "K") := by
  rcases le_or_lt y 1899 with h0 | h0
  · simp [ageBandOf, ageBins, binMatches, List.countP_cons, List.countP_nil,
      (show y ≤ 1899 by linarith),
      (show ¬ (1899:ℚ) < y by linarith),
      (show y ≤ 1929 by linarith),
      (show ¬ (1929:ℚ) < y by linarith),
      (show y ≤ 1949 by linarith),
      (show ¬ (1949:ℚ) < y by linarith),
      (show y ≤ 1966 by linarith),
      (show ¬ (1966:ℚ) < y by linarith),
      (show y ≤ 1977 by linarith),
      (show ¬ (1977:ℚ) < y by linarith),
      (show y ≤ 1982 by linarith),
      (show ¬ (1982:ℚ) < y by linarith),
      (show y ≤ 1993 by linarith),
      (show ¬ (1993:ℚ) < y by linarith),
      (show y ≤ 1999 by linarith),
      (show ¬ (1999:ℚ) < y by linarith),
      (show y ≤ 2004 by linarith),
      (show ¬ (2004:ℚ) < y by linarith),
      (show y ≤ 2009 by linarith),
      (show ¬ (2009:ℚ) < y by linarith)]
  rcases le_or_lt y 1929 with h1 | h1
  · simp [ageBandOf, ageBins, binMatches, List.countP_cons, List.countP_nil,
      (show ¬ y ≤ 1899 by linarith),
      (show (1899:ℚ) < y by linarith),
      (show y ≤ 1929 by linarith),
      (show ¬ (1929:ℚ) < y by linarith),
      (show y ≤ 1949 by linarith),
      (show ¬ (1949:ℚ) < y by linarith),
      (show y ≤ 1966 by linarith),
      (show ¬ (1966:ℚ) < y by linarith),
      (show y ≤ 1977 by linarith),
      (show ¬ (1977:ℚ) < y by linarith),
      (show y ≤ 1982 by linarith),
      (show ¬ (1982:ℚ) < y by linarith),
      (show y ≤ 1993 by linarith),
      (show ¬ (1993:ℚ) < y by linarith),
      (show y ≤ 1999 by linarith),
      (show ¬ (1999:ℚ) < y by linarith),
      (show y ≤ 2004 by linarith),
      (show ¬ (2004:ℚ) < y by linarith),
      (show y ≤ 2009 by linarith),
      (show ¬ (2009:ℚ) < y by linarith)]
  rcases le_or_lt y 1949 with h2 | h2
  · simp [ageBandOf, ageBins, binMatches, List.countP_cons, List.countP_nil,
      (show ¬ y ≤ 1899 by linarith),
      (show (1899:ℚ) < y by linarith),
      (show ¬ y ≤ 1929 by linarith),
      (show (1929:ℚ) < y by linarith),
      (show y ≤ 1949 by linarith),
      (show ¬ (1949:ℚ) < y by linarith),
      (show y ≤ 1966 by linarith),
      (show ¬ (1966:ℚ) < y by linarith),
      (show y ≤ 1977 by linarith),
      (show ¬ (1977:ℚ) < y by linarith),
      (show y ≤ 1982 by linarith),
      (show ¬ (1982:ℚ) < y by linarith),
      (show y ≤ 1993 by linarith),
      (show ¬ (1993:ℚ) < y by linarith),
      (show y ≤ 1999 by linarith),
      (show ¬ (1999:ℚ) < y by linarith),
      (show y ≤ 2004 by linarith),
      (show ¬ (2004:ℚ) < y by linarith),
      (show y ≤ 2009 by linarith),
      (show ¬ (2009:ℚ) < y by linarith)]
  rcases le_or_lt y 1966 with h3 | h3
  · simp [ageBandOf, ageBins, binMatches, List.countP_cons, List.countP_nil,
      (show ¬ y ≤ 1899 by linarith),
      (show (1899:ℚ) < y by linarith),
      (show ¬ y ≤ 1929 by linarith),
      (show (1929:ℚ) < y by linarith),
      (show ¬ y ≤ 1949 by linarith),
      (show (1949:ℚ) < y by linarith),
      (show y ≤ 1966 by linarith),
      (show ¬ (1966:ℚ) < y by linarith),
      (show y ≤ 1977 by linarith),
      (show ¬ (1977:ℚ) < y by linarith),
      (show y ≤ 1982 by linarith),
      (show ¬ (1982:ℚ) < y by linarith),
      (show y ≤ 1993 by linarith),
      (show ¬ (1993:ℚ) < y by linarith),
      (show y ≤ 1999 by linarith),
      (show ¬ (1999:ℚ) < y by linarith),
      (show y ≤ 2004 by linarith),
      (show ¬ (2004:ℚ) < y by linarith),
      (show y ≤ 2009 by linarith),
      (show ¬ (2009:ℚ) < y by linarith)]
  rcases le_or_lt y 1977 with h4 | h4
  · simp [ageBandOf, ageBins, binMatches, List.countP_cons, List.countP_nil,
      (show ¬ y ≤ 1899 by linarith),
      (show (1899:ℚ) < y by linarith),
      (show ¬ y ≤ 1929 by linarith),
      (show (1929:ℚ) < y by linarith),
      (show ¬ y ≤ 1949 by linarith),
      (show (1949:ℚ) < y by linarith),
      (show ¬ y ≤ 1966 by linarith),
      (show (1966:ℚ) < y by linarith),
      (show y ≤ 1977 by linarith),
      (show ¬ (1977:ℚ) < y by linarith),
      (show y ≤ 1982 by linarith),
      (show ¬ (1982:ℚ) < y by linarith),
      (show y ≤ 1993 by linarith),
      (show ¬ (1993:ℚ) < y by linarith),
      (show y ≤ 1999 by linarith),
      (show ¬ (1999:ℚ) < y by linarith),
      (show y ≤ 2004 by linarith),
      (show ¬ (2004:ℚ) < y by linarith),
      (show y ≤ 2009 by linarith),
      (show ¬ (2009:ℚ) < y by linarith)]
  rcases le_or_lt y 1982 with h5 | h5
  · simp [ageBandOf, ageBins, binMatches, List.countP_cons, List.countP_nil,
      (show ¬ y ≤ 1899 by linarith),
      (show (1899:ℚ) < y by linarith),
      (show ¬ y ≤ 1929 by linarith),
      (show (1929:ℚ) < y by linarith),
      (show ¬ y ≤ 1949 by linarith),
      (show (1949:ℚ) < y by linarith),
      (show ¬ y ≤ 1966 by linarith),
      (show (1966:ℚ) < y by linarith),
      (show ¬ y ≤ 1977 by linarith),
      (show (1977:ℚ) < y by linarith),
      (show y ≤ 1982 by linarith),
      (show ¬ (1982:ℚ) < y by linarith),
      (show y ≤ 1993 by linarith),
      (show ¬ (1993:ℚ) < y by linarith),
      (show y ≤ 1999 by linarith),
      (show ¬ (1999:ℚ) < y by linarith),
      (show y ≤ 2004 by linarith),
      (show ¬ (2004:ℚ) < y by linarith),
      (show y ≤ 2009 by linarith),
      (show ¬ (2009:ℚ) < y by linarith)]
  rcases le_or_lt y 1993 with h6 | h6
  · simp [ageBandOf, ageBins, binMatches, List.countP_cons, List.countP_nil,
      (show ¬ y ≤ 1899 by linarith),
      (show (1899:ℚ) < y by linarith),
      (show ¬ y ≤ 1929 by linarith),
      (show (1929:ℚ) < y by linarith),
      (show ¬ y ≤ 1949 by linarith),
      (show (1949:ℚ) < y by linarith),
      (show ¬ y ≤ 1966 by linarith),
      (show (1966:ℚ) < y by linarith),
      (show ¬ y ≤ 1977 by linarith),
      (show (1977:ℚ) < y by linarith),
      (show ¬ y ≤ 1982 by linarith),
      (show (1982:ℚ) < y by linarith),
      (show y ≤ 1993 by linarith),
      (show ¬ (1993:ℚ) < y by linarith),
      (show y ≤ 1999 by linarith),
      (show ¬ (1999:ℚ) < y by linarith),
      (show y ≤ 2004 by linarith),
      (show ¬ (2004:ℚ) < y by linarith),
      (show y ≤ 2009 by linarith),
      (show ¬ (2009:ℚ) < y by linarith)]
  rcases le_or_lt y 1999 with h7 | h7
  · simp [ageBandOf, ageBins, binMatches, List.countP_cons, List.countP_nil,
      (show ¬ y ≤ 1899 by linarith),
      (show (1899:ℚ) < y by linarith),
      (show ¬ y ≤ 1929 by linarith),
      (show (1929:ℚ) < y by linarith),
      (show ¬ y ≤ 1949 by linarith),
      (show (1949:ℚ) < y by linarith),
      (show ¬ y ≤ 1966 by linarith),
      (show (1966:ℚ) < y by linarith),
      (show ¬ y ≤ 1977 by linarith),
      (show (1977:ℚ) < y by linarith),
      (show ¬ y ≤ 1982 by linarith),
      (show (1982:ℚ) < y by linarith),
      (show ¬ y ≤ 1993 by linarith),
      (show (1993:ℚ) < y by linarith),
      (show y ≤ 1999 by linarith),
      (show ¬ (1999:ℚ) < y by linarith),
      (show y ≤ 2004 by linarith),
      (show ¬ (2004:ℚ) < y by linarith),
      (show y ≤ 2009 by linarith),
      (show ¬ (2009:ℚ) < y by linarith)]
  rcases le_or_lt y 2004 with h8 | h8
  · simp [ageBandOf, ageBins, binMatches, List.countP_cons, List.countP_nil,
      (show ¬ y ≤ 1899 by linarith),
      (show (1899:ℚ) < y by linarith),
      (show ¬ y ≤ 1929 by linarith),
      (show (1929:ℚ) < y by linarith),
      (show ¬ y ≤ 1949 by linarith),
      (show (1949:ℚ) < y by linarith),
      (show ¬ y ≤ 1966 by linarith),
      (show (1966:ℚ) < y by linarith),
      (show ¬ y ≤ 1977 by linarith),
      (show (1977:ℚ) < y by linarith),
      (show ¬ y ≤ 1982 by linarith),
      (show (1982:ℚ) < y by linarith),
      (show ¬ y ≤ 1993 by linarith),
      (show (1993:ℚ) < y by linarith),
      (show ¬ y ≤ 1999 by linarith),
      (show (1999:ℚ) < y by linarith),
      (show y ≤ 2004 by linarith),
      (show ¬ (2004:ℚ) < y by linarith),
      (show y ≤ 2009 by linarith),
      (show ¬ (2009:ℚ) < y by linarith)]
  rcases le_or_lt y 2009 with h9 | h9
  · simp [ageBandOf, ageBins, binMatches, List.countP_cons, List.countP_nil,
      (show ¬ y ≤ 1899 by linarith),
      (show (1899:ℚ) < y by linarith),
      (show ¬ y ≤ 1929 by linarith),
      (show (1929:ℚ) < y by linarith),
      (show ¬ y ≤ 1949 by linarith),
      (show (1949:ℚ) < y by linarith),
      (show ¬ y ≤ 1966 by linarith),
      (show (1966:ℚ) < y by linarith),
      (show ¬ y ≤ 1977 by linarith),
      (show (1977:ℚ) < y by linarith),
      (show ¬ y ≤ 1982 by linarith),
      (show (1982:ℚ) < y by linarith),
      (show ¬ y ≤ 1993 by linarith),
      (show (1993:ℚ) < y by linarith),
      (show ¬ y ≤ 1999 by linarith),
      (show (1999:ℚ) < y by linarith),
      (show ¬ y ≤ 2004 by linarith),
      (show (2004:ℚ) < y by linarith),
      (show y ≤ 2009 by linarith),
      (show ¬ (2009:ℚ) < y by linarith)]
  simp [ageBandOf, ageBins, binMatches, List.countP_cons, List.countP_nil,
      (show ¬ y ≤ 1899 by linarith),
      (show (1899:ℚ) < y by linarith),
      (show ¬ y ≤ 1929 by linarith),
      (show (1929:ℚ) < y by linarith),
      (show ¬ y ≤ 1949 by linarith),
      (show (1949:ℚ) < y by linarith),
      (show ¬ y ≤ 1966 by linarith),
      (show (1966:ℚ) < y by linarith),
      (show ¬ y ≤ 1977 by linarith),
      (show (1977:ℚ) < y by linarith),
      (show ¬ y ≤ 1982 by linarith),
      (show (1982:ℚ) < y by linarith),
      (show ¬ y ≤ 1993 by linarith),
      (show (1993:ℚ) < y by linarith),
      (show ¬ y ≤ 1999 by linarith),
      (show (1999:ℚ) < y by linarith),
      (show ¬ y ≤ 2004 by linarith),
      (show (2004:ℚ) < y by linarith),
      (show ¬ y ≤ 2009 by linarith),
      (show (2009:ℚ) < y by linarith)]

/-- Witness for C4 at the boundary years 1977 (band E) and 2026 (band K). -/
theorem c4_ageband_witness :
    ageBins.countP (fun e => binMatches (1977 : ℚ) e.1 e.2.1) = 1 ∧
    ageBandOf (1977 : ℚ) "" = "E" ∧ ageBandOf (2026 : ℚ) "" = "K" :=
  ⟨(c4_ageband_total_and_boundaries 1977 "").1,
   (c4_ageband_total_and_boundaries 1977 "").2.2.2.2.2.1
     (by with_unfolding_all decide) (by with_unfolding_all decide),
   (c4_ageband_total_and_boundaries 2026 "").2.2.2.2.2.2.2.2.2.2.2
     (by with_unfolding_all decide)⟩

/-- C7: when the raw story count is below 4 it is recomputed as one plus
the number of strictly positive upper-floor heights; otherwise the
record passes through unchanged. -/
theorem c7_storeys_correction (r : Record) :
    (r.NoStoreys < 4 → (correct_column_data r).NoStoreys =
      1 + (([r.FirstFloorHeight, r.SecondFloorHeight, r.ThirdFloorHeight].countP
              (fun h => decide (h > 0)) : ℕ) : ℚ)) ∧
    (4 ≤ r.NoStoreys → correct_column_data r = r) := by
  constructor
  · intro h
    simp only [correct_column_data, if_pos h, List.countP_cons, List.countP_nil,
      decide_eq_true_eq]
    push_cast [apply_ite (fun n => (n : ℚ))]
    split_ifs <;> norm_num
  · intro h
    simp [correct_column_data, not_lt.mpr h]

/-- Witness for C7: `baseRec` has NoStoreys 2 and one positive upper
floor height, so the corrected count is 2; with NoStoreys 5 the record
is untouched. -/
theorem c7_storeys_witness :
    (correct_column_data baseRec).NoStoreys = 2 ∧
    correct_column_data { baseRec with NoStoreys := 5 } = { baseRec with NoStoreys := 5 } := by
  constructor
  · have h := (c7_storeys_correction baseRec).1 (by with_unfolding_all decide)
    rw [h]; with_unfolding_all decide
  · exact (c7_storeys_correction { baseRec with NoStoreys := 5 }).2 (by with_unfolding_all decide)

/-- C8: the glazing ratio is the window-to-wall quotient when the wall
area is positive and exactly 0 otherwise, so the division is only ever
taken with a positive divisor. -/
theorem c8_glazing_total (r : Record) :
    ((add_desired_columns r).GlazingPercent =
      if r.WallArea > 0 then r.WindowArea / r.WallArea else 0) ∧
    (0 < r.WallArea → (add_desired_columns r).GlazingPercent = r.WindowArea / r.WallArea) ∧
    (r.WallArea ≤ 0 → (add_desired_columns r).GlazingPercent = 0) := by
  refine ⟨rfl, ?_, ?_⟩
  · intro h; simp [add_desired_columns, if_pos h]
  · intro h; simp [add_desired_columns, if_neg (not_lt.mpr h)]

/-- Witness for C8 at wall area 100 (quotient 1/5) and wall area 0. -/
theorem c8_glazing_witness :
    (add_desired_columns baseRec).GlazingPercent = baseRec.WindowArea / baseRec.WallArea ∧
    (add_desired_columns { baseRec with WallArea := 0 }).GlazingPercent = 0 :=
  ⟨(c8_glazing_total baseRec).2.1 (by with_unfolding_all decide),
   (c8_glazing_total { baseRec with WallArea := 0 }).2.2 (by with_unfolding_all decide)⟩

/-- C5: for a Pre-era record the engine flags exclusion whenever the
wall U-value leaves the band 0.20..2.90 — in particular a zero wall
U-value always leads to exclusion, whatever the other fields hold —
while the door, window, roof and floor clause checks each pass when the
value is exactly 0 or inside its era range. -/
theorem c5_pre_era_wall_rule (now : ℚ) (r : Record) (hera : r.ThermalEra = "Pre") :
    (¬ (0.20 ≤ r.UValueWall ∧ r.UValueWall ≤ 2.90) → filter_by_criteria now r = true) ∧
    (r.UValueWall = 0 → filter_by_criteria now r = true) ∧
    ((r.UvalueDoor = 0 ∨ (1.10 ≤ r.UvalueDoor ∧ r.UvalueDoor ≤ 3.90)) → preDoorExclude r = false) ∧
    ((r.UValueWindow = 0 ∨ (1.18 ≤ r.UValueWindow ∧ r.UValueWindow ≤ 5.70)) → preWindowExclude r = false) ∧
    ((r.UValueRoof = 0 ∨ (0.13 ≤ r.UValueRoof ∧ r.UValueRoof ≤ 1.99)) → preRoofExclude r = false) ∧
    ((r.UValueFloor = 0 ∨ (0.16 ≤ r.UValueFloor ∧ r.UValueFloor ≤ 1.14)) → preFloorExclude r = false) := by
  have wall : ¬ (0.20 ≤ r.UValueWall ∧ r.UValueWall ≤ 2.90) → filter_by_criteria now r = true := by
    intro hW
    have h1 : preWallExclude r = true := by
      simp only [preWallExclude, inRange, Bool.not_eq_true', Bool.and_eq_false_iff,
        decide_eq_false_iff_not, Bool.not_eq_true]
      rcases (not_and_or.mp hW) with h | h
      · exact Or.inl (by simpa using h)
      · exact Or.inr (by simpa using h)
    simp [filter_by_criteria, eraExclude, hera, h1]
  refine ⟨wall, fun h0 => wall (by rw [h0]; norm_num), ?_, ?_, ?_, ?_⟩
  · intro h
    simp only [preDoorExclude, inRange, Bool.not_eq_false', Bool.or_eq_true, Bool.and_eq_true,
      decide_eq_true_eq]
    exact h.symm
  · intro h
    simp only [preWindowExclude, inRange, Bool.not_eq_false', Bool.or_eq_true, Bool.and_eq_true,
      decide_eq_true_eq]
    exact h.symm
  · intro h
    simp only [preRoofExclude, inRange, Bool.not_eq_false', Bool.or_eq_true, Bool.and_eq_true,
      decide_eq_true_eq]
    exact h.symm
  · intro h
    simp only [preFloorExclude, inRange, Bool.not_eq_false', Bool.or_eq_true, Bool.and_eq_true,
      decide_eq_true_eq]
    exact h.symm

/-- Witness for C5: a concrete Pre-era record with zero wall U-value is
flagged for exclusion, and its zero door U-value passes the door check. -/
theorem c5_pre_era_witness :
    filter_by_criteria 2026 preZeroWallRec = true ∧
    preDoorExclude { preZeroWallRec with UvalueDoor := 0 } = false :=
  ⟨(c5_pre_era_wall_rule 2026 preZeroWallRec rfl).2.1 rfl,
   (c5_pre_era_wall_rule 2026 { preZeroWallRec with UvalueDoor := 0 } rfl).2.2.1 (Or.inl rfl)⟩

/-- Cleaning then filtering distributes over list concatenation. -/
theorem processChunk_append (now : ℚ) (xs ys : List Record) :
    processChunk now (xs ++ ys) = processChunk now xs ++ processChunk now ys := by
  simp [processChunk, List.filter_append]

/-- With positive chunk size and enough fuel, the chunked loop computes
the same record stream as a single pass over the whole input. -/
theorem processChunkedAux_eq_processChunk (now : ℚ) (n : ℕ) (hn : 0 < n) :
    ∀ (fuel : ℕ) (xs : List Record), xs.length ≤ fuel →
      processChunkedAux now n fuel xs = processChunk now xs := by
  intro fuel
  induction fuel with
  | zero =>
    intro xs h
    have hx : xs = [] := List.eq_nil_of_length_eq_zero (Nat.le_zero.mp h)
    subst hx
    simp [processChunkedAux, processChunk]
  | succ k ih =>
    intro xs h
    cases xs with
    | nil => simp [processChunkedAux, processChunk]
    | cons a as =>
      have h1 : as.length + 1 ≤ k + 1 := by simpa using h
      have hdrop : ((a :: as).drop n).length ≤ k := by
        simp only [List.length_drop, List.length_cons]
        omega
      calc processChunkedAux now n (k + 1) (a :: as)
          = processChunk now ((a :: as).take n) ++
              processChunkedAux now n k ((a :: as).drop n) := rfl
        _ = processChunk now ((a :: as).take n) ++ processChunk now ((a :: as).drop n) := by
              rw [ih _ hdrop]
        _ = processChunk now ((a :: as).take n ++ (a :: as).drop n) :=
              (processChunk_append now _ _).symm
        _ = processChunk now (a :: as) := by rw [List.take_append_drop]

/-- C9: for any fixed input stream and any two positive chunk sizes the
orchestrator yields the same output records in the same order. -/
theorem c9_chunk_size_invariance (now : ℚ) (xs : List Record) (n m : ℕ)
    (hn : 0 < n) (hm : 0 < m) :
    processChunked now n xs = processChunked now m xs := by
  unfold processChunked
  rw [processChunkedAux_eq_processChunk now n hn xs.length xs le_rfl,
      processChunkedAux_eq_processChunk now m hm xs.length xs le_rfl]

/-- Witness for C9 at chunk sizes 1 and 1000 on a two-record stream. -/
theorem c9_chunk_size_witness :
    0 < 1 ∧ 0 < 1000 ∧
    processChunked 2026 1 [baseRec, recWithFinalColumn] =
      processChunked 2026 1000 [baseRec, recWithFinalColumn] :=
  ⟨by decide, by decide,
   c9_chunk_size_invariance 2026 [baseRec, recWithFinalColumn] 1 1000 (by decide) (by decide)⟩

/-- C10: the orchestrator yields a configuration error exactly when the
two destinations coincide or one of them lacks the .csv marker; in the
error cases the result does not depend on the input contents (nothing is
read and no output is produced), and otherwise the full processed stream
is returned with no error. -/
theorem c10_config_error_iff (now : ℚ) (inp out : String) (n : ℕ) (xs : List Record) :
    ((∃ e, process_csv_file now inp out n xs = .error e) ↔
      (inp = out ∨ strEndsWith inp ".csv" = false ∨ strEndsWith out ".csv" = false)) ∧
    ((inp = out ∨ strEndsWith inp ".csv" = false ∨ strEndsWith out ".csv" = false) →
      ∀ ys, process_csv_file now inp out n xs = process_csv_file now inp out n ys) ∧
    (¬ (inp = out ∨ strEndsWith inp ".csv" = false ∨ strEndsWith out ".csv" = false) →
      process_csv_file now inp out n xs = .ok (processChunked now n xs)) := by
  cases h1 : strEndsWith inp ".csv" <;> cases h2 : strEndsWith out ".csv" <;>
    by_cases h3 : inp = out <;>
    simp [process_csv_file, h1, h2, h3]

/-- Witness for C10: equal destinations yield an error; distinct .csv
destinations process the stream. -/
theorem c10_config_error_witness :
    (∃ e, process_csv_file 2026 "a.csv" "a.csv" 1000 [baseRec] = .error e) ∧
    process_csv_file 2026 "in.csv" "out.csv" 1000 [baseRec] =
      .ok (processChunked 2026 1000 [baseRec]) :=
  ⟨(c10_config_error_iff 2026 "a.csv" "a.csv" 1000 [baseRec]).1.mpr (Or.inl rfl),
   (c10_config_error_iff 2026 "in.csv" "out.csv" 1000 [baseRec]).2.2
     (by with_unfolding_all decide)⟩

set_option maxHeartbeats 1000000 in
/-- Evaluation of `find_and_replace` on an age-band-A record is the double table lookup. -/
theorem fr_band_A (r : Record) (hb : r.AgeBand = "A") :
    find_and_replace r =
      { r with
        UValueWall := wallLookup r.AgeBand r.FirstWallType_Description r.UValueWall,
        UValueRoof := roofLookup r.AgeBand r.UValueRoof } := by
  obtain ⟨y, gfh, ffh, sfh, tfh, gfa, wa, wia, da, fa, ra, lap, hse, whe, ud, uw, ur, uf,
    uwa, ns, dt, fwd, tr, ab, te, gp, vo, cols⟩ := r
  simp only at hb
  subst hb
  simp only [find_and_replace, wallLookup, roofLookup]
  simp only [apply_ite Record.Year_of_Construction, apply_ite Record.GroundFloorHeight,
    apply_ite Record.FirstFloorHeight, apply_ite Record.SecondFloorHeight,
    apply_ite Record.ThirdFloorHeight, apply_ite Record.GroundFloorArea,
    apply_ite Record.WallArea, apply_ite Record.WindowArea, apply_ite Record.DoorArea,
    apply_ite Record.FloorArea, apply_ite Record.RoofArea, apply_ite Record.LivingAreaPercent,
    apply_ite Record.HSMainSystemEfficiency, apply_ite Record.WHMainSystemEff,
    apply_ite Record.UvalueDoor, apply_ite Record.UValueWindow, apply_ite Record.UValueRoof,
    apply_ite Record.UValueFloor, apply_ite Record.UValueWall, apply_ite Record.NoStoreys,
    apply_ite Record.DwellingTypeDescr, apply_ite Record.FirstWallType_Description,
    apply_ite Record.TypeofRating, apply_ite Record.AgeBand, apply_ite Record.ThermalEra,
    apply_ite Record.GlazingPercent, apply_ite Record.Volume, apply_ite Record.columns,
    ite_self]
  simp
  split_ifs <;> simp_all

set_option maxHeartbeats 1000000 in
/-- Evaluation of `find_and_replace` on an age-band-B record is the double table lookup. -/
theorem fr_band_B (r : Record) (hb : r.AgeBand = "B") :
    find_and_replace r =
      { r with
        UValueWall := wallLookup r.AgeBand r.FirstWallType_Description r.UValueWall,
        UValueRoof := roofLookup r.AgeBand r.UValueRoof } := by
  obtain ⟨y, gfh, ffh, sfh, tfh, gfa, wa, wia, da, fa, ra, lap, hse, whe, ud, uw, ur, uf,
    uwa, ns, dt, fwd, tr, ab, te, gp, vo, cols⟩ := r
  simp only at hb
  subst hb
  simp only [find_and_replace, wallLookup, roofLookup]
  simp only [apply_ite Record.Year_of_Construction, apply_ite Record.GroundFloorHeight,
    apply_ite Record.FirstFloorHeight, apply_ite Record.SecondFloorHeight,
    apply_ite Record.ThirdFloorHeight, apply_ite Record.GroundFloorArea,
    apply_ite Record.WallArea, apply_ite Record.WindowArea, apply_ite Record.DoorArea,
    apply_ite Record.FloorArea, apply_ite Record.RoofArea, apply_ite Record.LivingAreaPercent,
    apply_ite Record.HSMainSystemEfficiency, apply_ite Record.WHMainSystemEff,
    apply_ite Record.UvalueDoor, apply_ite Record.UValueWindow, apply_ite Record.UValueRoof,
    apply_ite Record.UValueFloor, apply_ite Record.UValueWall, apply_ite Record.NoStoreys,
    apply_ite Record.DwellingTypeDescr, apply_ite Record.FirstWallType_Description,
    apply_ite Record.TypeofRating, apply_ite Record.AgeBand, apply_ite Record.ThermalEra,
    apply_ite Record.GlazingPercent, apply_ite Record.Volume, apply_ite Record.columns,
    ite_self]
  simp
  split_ifs <;> simp_all

set_option maxHeartbeats 1000000 in
/-- Evaluation of `find_and_replace` on an age-band-C record is the double table lookup. -/
theorem fr_band_C (r : Record) (hb : r.AgeBand = "C") :
    find_and_replace r =
      { r with
        UValueWall := wallLookup r.AgeBand r.FirstWallType_Description r.UValueWall,
        UValueRoof := roofLookup r.AgeBand r.UValueRoof } := by
  obtain ⟨y, gfh, ffh, sfh, tfh, gfa, wa, wia, da, fa, ra, lap, hse, whe, ud, uw, ur, uf,
    uwa, ns, dt, fwd, tr, ab, te, gp, vo, cols⟩ := r
  simp only at hb
  subst hb
  simp only [find_and_replace, wallLookup, roofLookup]
  simp only [apply_ite Record.Year_of_Construction, apply_ite Record.GroundFloorHeight,
    apply_ite Record.FirstFloorHeight, apply_ite Record.SecondFloorHeight,
    apply_ite Record.ThirdFloorHeight, apply_ite Record.GroundFloorArea,
    apply_ite Record.WallArea, apply_ite Record.WindowArea, apply_ite Record.DoorArea,
    apply_ite Record.FloorArea, apply_ite Record.RoofArea, apply_ite Record.LivingAreaPercent,
    apply_ite Record.HSMainSystemEfficiency, apply_ite Record.WHMainSystemEff,
    apply_ite Record.UvalueDoor, apply_ite Record.UValueWindow, apply_ite Record.UValueRoof,
    apply_ite Record.UValueFloor, apply_ite Record.UValueWall, apply_ite Record.NoStoreys,
    apply_ite Record.DwellingTypeDescr, apply_ite Record.FirstWallType_Description,
    apply_ite Record.TypeofRating, apply_ite Record.AgeBand, apply_ite Record.ThermalEra,
    apply_ite Record.GlazingPercent, apply_ite Record.Volume, apply_ite Record.columns,
    ite_self]
  simp
  split_ifs <;> simp_all

set_option maxHeartbeats 1000000 in
/-- Evaluation of `find_and_replace` on an age-band-D record is the double table lookup. -/
theorem fr_band_D (r : Record) (hb : r.AgeBand = "D") :
    find_and_replace r =
      { r with
        UValueWall := wallLookup r.AgeBand r.FirstWallType_Description r.UValueWall,
        UValueRoof := roofLookup r.AgeBand r.UValueRoof } := by
  obtain ⟨y, gfh, ffh, sfh, tfh, gfa, wa, wia, da, fa, ra, lap, hse, whe, ud, uw, ur, uf,
    uwa, ns, dt, fwd, tr, ab, te, gp, vo, cols⟩ := r
  simp only at hb
  subst hb
  simp only [find_and_replace, wallLookup, roofLookup]
  simp only [apply_ite Record.Year_of_Construction, apply_ite Record.GroundFloorHeight,
    apply_ite Record.FirstFloorHeight, apply_ite Record.SecondFloorHeight,
    apply_ite Record.ThirdFloorHeight, apply_ite Record.GroundFloorArea,
    apply_ite Record.WallArea, apply_ite Record.WindowArea, apply_ite Record.DoorArea,
    apply_ite Record.FloorArea, apply_ite Record.RoofArea, apply_ite Record.LivingAreaPercent,
    apply_ite Record.HSMainSystemEfficiency, apply_ite Record.WHMainSystemEff,
    apply_ite Record.UvalueDoor, apply_ite Record.UValueWindow, apply_ite Record.UValueRoof,
    apply_ite Record.UValueFloor, apply_ite Record.UValueWall, apply_ite Record.NoStoreys,
    apply_ite Record.DwellingTypeDescr, apply_ite Record.FirstWallType_Description,
    apply_ite Record.TypeofRating, apply_ite Record.AgeBand, apply_ite Record.ThermalEra,
    apply_ite Record.GlazingPercent, apply_ite Record.Volume, apply_ite Record.columns,
    ite_self]
  simp
  split_ifs <;> simp_all

set_option maxHeartbeats 1000000 in
/-- Evaluation of `find_and_replace` on an age-band-E record is the double table lookup. -/
theorem fr_band_E (r : Record) (hb : r.AgeBand = "E") :
    find_and_replace r =
      { r with
        UValueWall := wallLookup r.AgeBand r.FirstWallType_Description r.UValueWall,
        UValueRoof := roofLookup r.AgeBand r.UValueRoof } := by
  obtain ⟨y, gfh, ffh, sfh, tfh, gfa, wa, wia, da, fa, ra, lap, hse, whe, ud, uw, ur, uf,
    uwa, ns, dt, fwd, tr, ab, te, gp, vo, cols⟩ := r
  simp only at hb
  subst hb
  simp only [find_and_replace, wallLookup, roofLookup]
  simp only [apply_ite Record.Year_of_Construction, apply_ite Record.GroundFloorHeight,
    apply_ite Record.FirstFloorHeight, apply_ite Record.SecondFloorHeight,
    apply_ite Record.ThirdFloorHeight, apply_ite Record.GroundFloorArea,
    apply_ite Record.WallArea, apply_ite Record.WindowArea, apply_ite Record.DoorArea,
    apply_ite Record.FloorArea, apply_ite Record.RoofArea, apply_ite Record.LivingAreaPercent,
    apply_ite Record.HSMainSystemEfficiency, apply_ite Record.WHMainSystemEff,
    apply_ite Record.UvalueDoor, apply_ite Record.UValueWindow, apply_ite Record.UValueRoof,
    apply_ite Record.UValueFloor, apply_ite Record.UValueWall, apply_ite Record.NoStoreys,
    apply_ite Record.DwellingTypeDescr, apply_ite Record.FirstWallType_Description,
    apply_ite Record.TypeofRating, apply_ite Record.AgeBand, apply_ite Record.ThermalEra,
    apply_ite Record.GlazingPercent, apply_ite Record.Volume, apply_ite Record.columns,
    ite_self]
  simp
  split_ifs <;> simp_all

set_option maxHeartbeats 1000000 in
/-- Evaluation of `find_and_replace` on an age-band-F record is the double table lookup. -/
theorem fr_band_F (r : Record) (hb : r.AgeBand = "F") :
    find_and_replace r =
      { r with
        UValueWall := wallLookup r.AgeBand r.FirstWallType_Description r.UValueWall,
        UValueRoof := roofLookup r.AgeBand r.UValueRoof } := by
  obtain ⟨y, gfh, ffh, sfh, tfh, gfa, wa, wia, da, fa, ra, lap, hse, whe, ud, uw, ur, uf,
    uwa, ns, dt, fwd, tr, ab, te, gp, vo, cols⟩ := r
  simp only at hb
  subst hb
  simp only [find_and_replace, wallLookup, roofLookup]
  simp only [apply_ite Record.Year_of_Construction, apply_ite Record.GroundFloorHeight,
    apply_ite Record.FirstFloorHeight, apply_ite Record.SecondFloorHeight,
    apply_ite Record.ThirdFloorHeight, apply_ite Record.GroundFloorArea,
    apply_ite Record.WallArea, apply_ite Record.WindowArea, apply_ite Record.DoorArea,
    apply_ite Record.FloorArea, apply_ite Record.RoofArea, apply_ite Record.LivingAreaPercent,
    apply_ite Record.HSMainSystemEfficiency, apply_ite Record.WHMainSystemEff,
    apply_ite Record.UvalueDoor, apply_ite Record.UValueWindow, apply_ite Record.UValueRoof,
    apply_ite Record.UValueFloor, apply_ite Record.UValueWall, apply_ite Record.NoStoreys,
    apply_ite Record.DwellingTypeDescr, apply_ite Record.FirstWallType_Description,
    apply_ite Record.TypeofRating, apply_ite Record.AgeBand, apply_ite Record.ThermalEra,
    apply_ite Record.GlazingPercent, apply_ite Record.Volume, apply_ite Record.columns,
    ite_self]
  simp
  split_ifs <;> simp_all

set_option maxHeartbeats 1000000 in
/-- Evaluation of `find_and_replace` on an age-band-G record is the double table lookup. -/
theorem fr_band_G (r : Record) (hb : r.AgeBand = "G") :
    find_and_replace r =
      { r with
        UValueWall := wallLookup r.AgeBand r.FirstWallType_Description r.UValueWall,
        UValueRoof := roofLookup r.AgeBand r.UValueRoof } := by
  obtain ⟨y, gfh, ffh, sfh, tfh, gfa, wa, wia, da, fa, ra, lap, hse, whe, ud, uw, ur, uf,
    uwa, ns, dt, fwd, tr, ab, te, gp, vo, cols⟩ := r
  simp only at hb
  subst hb
  simp only [find_and_replace, wallLookup, roofLookup]
  simp only [apply_ite Record.Year_of_Construction, apply_ite Record.GroundFloorHeight,
    apply_ite Record.FirstFloorHeight, apply_ite Record.SecondFloorHeight,
    apply_ite Record.ThirdFloorHeight, apply_ite Record.GroundFloorArea,
    apply_ite Record.WallArea, apply_ite Record.WindowArea, apply_ite Record.DoorArea,
    apply_ite Record.FloorArea, apply_ite Record.RoofArea, apply_ite Record.LivingAreaPercent,
    apply_ite Record.HSMainSystemEfficiency, apply_ite Record.WHMainSystemEff,
    apply_ite Record.UvalueDoor, apply_ite Record.UValueWindow, apply_ite Record.UValueRoof,
    apply_ite Record.UValueFloor, apply_ite Record.UValueWall, apply_ite Record.NoStoreys,
    apply_ite Record.DwellingTypeDescr, apply_ite Record.FirstWallType_Description,
    apply_ite Record.TypeofRating, apply_ite Record.AgeBand, apply_ite Record.ThermalEra,
    apply_ite Record.GlazingPercent, apply_ite Record.Volume, apply_ite Record.columns,
    ite_self]
  simp
  split_ifs <;> simp_all

set_option maxHeartbeats 1000000 in
/-- Evaluation of `find_and_replace` on an age-band-H record is the double table lookup. -/
theorem fr_band_H (r : Record) (hb : r.AgeBand = "H") :
    find_and_replace r =
      { r with
        UValueWall := wallLookup r.AgeBand r.FirstWallType_Description r.UValueWall,
        UValueRoof := roofLookup r.AgeBand r.UValueRoof } := by
  obtain ⟨y, gfh, ffh, sfh, tfh, gfa, wa, wia, da, fa, ra, lap, hse, whe, ud, uw, ur, uf,
    uwa, ns, dt, fwd, tr, ab, te, gp, vo, cols⟩ := r
  simp only at hb
  subst hb
  simp only [find_and_replace, wallLookup, roofLookup]
  simp only [apply_ite Record.Year_of_Construction, apply_ite Record.GroundFloorHeight,
    apply_ite Record.FirstFloorHeight, apply_ite Record.SecondFloorHeight,
    apply_ite Record.ThirdFloorHeight, apply_ite Record.GroundFloorArea,
    apply_ite Record.WallArea, apply_ite Record.WindowArea, apply_ite Record.DoorArea,
    apply_ite Record.FloorArea, apply_ite Record.RoofArea, apply_ite Record.LivingAreaPercent,
    apply_ite Record.HSMainSystemEfficiency, apply_ite Record.WHMainSystemEff,
    apply_ite Record.UvalueDoor, apply_ite Record.UValueWindow, apply_ite Record.UValueRoof,
    apply_ite Record.UValueFloor, apply_ite Record.UValueWall, apply_ite Record.NoStoreys,
    apply_ite Record.DwellingTypeDescr, apply_ite Record.FirstWallType_Description,
    apply_ite Record.TypeofRating, apply_ite Record.AgeBand, apply_ite Record.ThermalEra,
    apply_ite Record.GlazingPercent, apply_ite Record.Volume, apply_ite Record.columns,
    ite_self]
  simp
  split_ifs <;> simp_all

set_option maxHeartbeats 1000000 in
/-- Evaluation of `find_and_replace` on an age-band-I record is the double table lookup. -/
theorem fr_band_I (r : Record) (hb : r.AgeBand = "I") :
    find_and_replace r =
      { r with
        UValueWall := wallLookup r.AgeBand r.FirstWallType_Description r.UValueWall,
        UValueRoof := roofLookup r.AgeBand r.UValueRoof } := by
  obtain ⟨y, gfh, ffh, sfh, tfh, gfa, wa, wia, da, fa, ra, lap, hse, whe, ud, uw, ur, uf,
    uwa, ns, dt, fwd, tr, ab, te, gp, vo, cols⟩ := r
  simp only at hb
  subst hb
  simp only [find_and_replace, wallLookup, roofLookup]
  simp only [apply_ite Record.Year_of_Construction, apply_ite Record.GroundFloorHeight,
    apply_ite Record.FirstFloorHeight, apply_ite Record.SecondFloorHeight,
    apply_ite Record.ThirdFloorHeight, apply_ite Record.GroundFloorArea,
    apply_ite Record.WallArea, apply_ite Record.WindowArea, apply_ite Record.DoorArea,
    apply_ite Record.FloorArea, apply_ite Record.RoofArea, apply_ite Record.LivingAreaPercent,
    apply_ite Record.HSMainSystemEfficiency, apply_ite Record.WHMainSystemEff,
    apply_ite Record.UvalueDoor, apply_ite Record.UValueWindow, apply_ite Record.UValueRoof,
    apply_ite Record.UValueFloor, apply_ite Record.UValueWall, apply_ite Record.NoStoreys,
    apply_ite Record.DwellingTypeDescr, apply_ite Record.FirstWallType_Description,
    apply_ite Record.TypeofRating, apply_ite Record.AgeBand, apply_ite Record.ThermalEra,
    apply_ite Record.GlazingPercent, apply_ite Record.Volume, apply_ite Record.columns,
    ite_self]
  simp
  split_ifs <;> simp_all

set_option maxHeartbeats 1000000 in
/-- Evaluation of `find_and_replace` on an age-band-J record is the double table lookup. -/
theorem fr_band_J (r : Record) (hb : r.AgeBand = "J") :
    find_and_replace r =
      { r with
        UValueWall := wallLookup r.AgeBand r.FirstWallType_Description r.UValueWall,
        UValueRoof := roofLookup r.AgeBand r.UValueRoof } := by
  obtain ⟨y, gfh, ffh, sfh, tfh, gfa, wa, wia, da, fa, ra, lap, hse, whe, ud, uw, ur, uf,
    uwa, ns, dt, fwd, tr, ab, te, gp, vo, cols⟩ := r
  simp only at hb
  subst hb
  simp only [find_and_replace, wallLookup, roofLookup]
  simp only [apply_ite Record.Year_of_Construction, apply_ite Record.GroundFloorHeight,
    apply_ite Record.FirstFloorHeight, apply_ite Record.SecondFloorHeight,
    apply_ite Record.ThirdFloorHeight, apply_ite Record.GroundFloorArea,
    apply_ite Record.WallArea, apply_ite Record.WindowArea, apply_ite Record.DoorArea,
    apply_ite Record.FloorArea, apply_ite Record.RoofArea, apply_ite Record.LivingAreaPercent,
    apply_ite Record.HSMainSystemEfficiency, apply_ite Record.WHMainSystemEff,
    apply_ite Record.UvalueDoor, apply_ite Record.UValueWindow, apply_ite Record.UValueRoof,
    apply_ite Record.UValueFloor, apply_ite Record.UValueWall, apply_ite Record.NoStoreys,
    apply_ite Record.DwellingTypeDescr, apply_ite Record.FirstWallType_Description,
    apply_ite Record.TypeofRating, apply_ite Record.AgeBand, apply_ite Record.ThermalEra,
    apply_ite Record.GlazingPercent, apply_ite Record.Volume, apply_ite Record.columns,
    ite_self]
  simp
  split_ifs <;> simp_all

set_option maxHeartbeats 1000000 in
/-- Evaluation of `find_and_replace` on an age-band-K record is the double table lookup. -/
theorem fr_band_K (r : Record) (hb : r.AgeBand = "K") :
    find_and_replace r =
      { r with
        UValueWall := wallLookup r.AgeBand r.FirstWallType_Description r.UValueWall,
        UValueRoof := roofLookup r.AgeBand r.UValueRoof } := by
  obtain ⟨y, gfh, ffh, sfh, tfh, gfa, wa, wia, da, fa, ra, lap, hse, whe, ud, uw, ur, uf,
    uwa, ns, dt, fwd, tr, ab, te, gp, vo, cols⟩ := r
  simp only at hb
  subst hb
  simp only [find_and_replace, wallLookup, roofLookup]
  simp only [apply_ite Record.Year_of_Construction, apply_ite Record.GroundFloorHeight,
    apply_ite Record.FirstFloorHeight, apply_ite Record.SecondFloorHeight,
    apply_ite Record.ThirdFloorHeight, apply_ite Record.GroundFloorArea,
    apply_ite Record.WallArea, apply_ite Record.WindowArea, apply_ite Record.DoorArea,
    apply_ite Record.FloorArea, apply_ite Record.RoofArea, apply_ite Record.LivingAreaPercent,
    apply_ite Record.HSMainSystemEfficiency, apply_ite Record.WHMainSystemEff,
    apply_ite Record.UvalueDoor, apply_ite Record.UValueWindow, apply_ite Record.UValueRoof,
    apply_ite Record.UValueFloor, apply_ite Record.UValueWall, apply_ite Record.NoStoreys,
    apply_ite Record.DwellingTypeDescr, apply_ite Record.FirstWallType_Description,
    apply_ite Record.TypeofRating, apply_ite Record.AgeBand, apply_ite Record.ThermalEra,
    apply_ite Record.GlazingPercent, apply_ite Record.Volume, apply_ite Record.columns,
    ite_self]
  simp
  split_ifs <;> simp_all

set_option maxHeartbeats 1000000 in
/-- A record whose age band is not in the table passes through
`find_and_replace` unchanged, matching the identity lookups. -/
theorem fr_band_other (r : Record)
    (h : r.AgeBand ≠ "A" ∧
      r.AgeBand ≠ "B" ∧
      r.AgeBand ≠ "C" ∧
      r.AgeBand ≠ "D" ∧
      r.AgeBand ≠ "E" ∧
      r.AgeBand ≠ "F" ∧
      r.AgeBand ≠ "G" ∧
      r.AgeBand ≠ "H" ∧
      r.AgeBand ≠ "I" ∧
      r.AgeBand ≠ "J" ∧
      r.AgeBand ≠ "K") :
    find_and_replace r =
      { r with
        UValueWall := wallLookup r.AgeBand r.FirstWallType_Description r.UValueWall,
        UValueRoof := roofLookup r.AgeBand r.UValueRoof } := by
  obtain ⟨hA, hB, hC, hD, hE, hF, hG, hH, hI, hJ, hK⟩ := h
  simp [find_and_replace, wallLookup, roofLookup, hA, hB, hC, hD, hE, hF, hG, hH, hI, hJ, hK]

/-- C6: `find_and_replace` acts as a pure double table lookup: the wall
U-value is replaced exactly on an `(AgeBand, current UValueWall, wall
description)` match, the roof U-value independently on an
`(AgeBand, current UValueRoof)` match, every other field is preserved,
and unmatched combinations pass through unchanged; in particular age
band A with wall value 2.10 and description Stone is corrected to 2.90
while the unmatched description Brick leaves the wall value unchanged. -/
theorem c6_find_and_replace_is_lookup :
    (∀ r : Record, find_and_replace r =
      { r with
        UValueWall := wallLookup r.AgeBand r.FirstWallType_Description r.UValueWall,
        UValueRoof := roofLookup r.AgeBand r.UValueRoof }) ∧
    wallLookup "A" "Stone" 2.10 = 2.90 ∧
    wallLookup "A" "Brick" 2.10 = 2.10 := by
  refine ⟨?_, by with_unfolding_all decide, by with_unfolding_all decide⟩
  intro r
  by_cases hA : r.AgeBand = "A"
  · exact fr_band_A r hA
  by_cases hB : r.AgeBand = "B"
  · exact fr_band_B r hB
  by_cases hC : r.AgeBand = "C"
  · exact fr_band_C r hC
  by_cases hD : r.AgeBand = "D"
  · exact fr_band_D r hD
  by_cases hE : r.AgeBand = "E"
  · exact fr_band_E r hE
  by_cases hF : r.AgeBand = "F"
  · exact fr_band_F r hF
  by_cases hG : r.AgeBand = "G"
  · exact fr_band_G r hG
  by_cases hH : r.AgeBand = "H"
  · exact fr_band_H r hH
  by_cases hI : r.AgeBand = "I"
  · exact fr_band_I r hI
  by_cases hJ : r.AgeBand = "J"
  · exact fr_band_J r hJ
  by_cases hK : r.AgeBand = "K"
  · exact fr_band_K r hK
  exact fr_band_other r ⟨hA, hB, hC, hD, hE, hF, hG, hH, hI, hJ, hK⟩
